import Mathlib

set_option maxRecDepth 100000

/-!
Verification of the Alert-to-Remediation Orchestration Engine of the Trident
testbed, shallowly embedded from
src/images/slips_defender/defender/auto_responder.py.

Conventions of the embedding:
* Python dictionaries parsed from one JSON alert line are modelled as
  association lists with pairwise distinct keys and atomic JSON values.
* Wall-clock instants are modelled as integer seconds; the source samples
  datetime.now at each check, which the theorems expose as an explicit
  time parameter.
* Python calls that can raise are modelled with Except Unit; a raised
  exception is Except.error.
* hashlib.md5 hexdigests are computed by a full MD5 implementation below;
  json.dumps with sort_keys is modelled by an explicit serializer whose
  output is ASCII, so byte extraction is character-code extraction.
-/

namespace Trident

/-! ## MD5 (models hashlib.md5(...).hexdigest()) -/

def md5K : List Nat := [
  3614090360, 3905402710, 606105819, 3250441966, 4118548399, 1200080426, 2821735955, 4249261313,
  1770035416, 2336552879, 4294925233, 2304563134, 1804603682, 4254626195, 2792965006, 1236535329,
  4129170786, 3225465664, 643717713, 3921069994, 3593408605, 38016083, 3634488961, 3889429448,
  568446438, 3275163606, 4107603335, 1163531501, 2850285829, 4243563512, 1735328473, 2368359562,
  4294588738, 2272392833, 1839030562, 4259657740, 2763975236, 1272893353, 4139469664, 3200236656,
  681279174, 3936430074, 3572445317, 76029189, 3654602809, 3873151461, 530742520, 3299628645,
  4096336452, 1126891415, 2878612391, 4237533241, 1700485571, 2399980690, 4293915773, 2240044497,
  1873313359, 4264355552, 2734768916, 1309151649, 4149444226, 3174756917, 718787259, 3951481745]

def md5S : List Nat := [
  7, 12, 17, 22, 7, 12, 17, 22, 7, 12, 17, 22, 7, 12, 17, 22,
  5, 9, 14, 20, 5, 9, 14, 20, 5, 9, 14, 20, 5, 9, 14, 20,
  4, 11, 16, 23, 4, 11, 16, 23, 4, 11, 16, 23, 4, 11, 16, 23,
  6, 10, 15, 21, 6, 10, 15, 21, 6, 10, 15, 21, 6, 10, 15, 21]

def md5Rotl (x n : Nat) : Nat :=
  ((x <<< n) ||| (x >>> (32 - n))) % 4294967296

def md5Mix (i b c d : Nat) : Nat :=
  if i < 16 then (b &&& c) ||| ((4294967295 ^^^ b) &&& d)
  else if i < 32 then (d &&& b) ||| ((4294967295 ^^^ d) &&& c)
  else if i < 48 then b ^^^ c ^^^ d
  else c ^^^ (b ||| (4294967295 ^^^ d))

def md5MsgIdx (i : Nat) : Nat :=
  if i < 16 then i
  else if i < 32 then (5 * i + 1) % 16
  else if i < 48 then (3 * i + 5) % 16
  else (7 * i) % 16

def md5Step (m : List Nat) (st : Nat × Nat × Nat × Nat) (i : Nat) :
    Nat × Nat × Nat × Nat :=
  let (a, b, c, d) := st
  let f := (md5Mix i b c d + a + md5K.getD i 0 + m.getD (md5MsgIdx i) 0) % 4294967296
  (d, (b + md5Rotl f (md5S.getD i 0)) % 4294967296, b, c)

def md5Word (block : List Nat) (j : Nat) : Nat :=
  block.getD (4 * j) 0 + 256 * block.getD (4 * j + 1) 0 +
    65536 * block.getD (4 * j + 2) 0 + 16777216 * block.getD (4 * j + 3) 0

def md5Block (st : Nat × Nat × Nat × Nat) (block : List Nat) :
    Nat × Nat × Nat × Nat :=
  let m := (List.range 16).map (md5Word block)
  let (a, b, c, d) := (List.range 64).foldl (md5Step m) st
  let (a0, b0, c0, d0) := st
  ((a0 + a) % 4294967296, (b0 + b) % 4294967296,
   (c0 + c) % 4294967296, (d0 + d) % 4294967296)

def md5Pad (msg : List Nat) : List Nat :=
  let len := msg.length
  let zeros := (119 - (len % 64)) % 64
  let bitLen := (8 * len) % 18446744073709551616
  msg ++ [128] ++ List.replicate zeros 0 ++
    (List.range 8).map (fun k => (bitLen >>> (8 * k)) % 256)

def hexDigit (n : Nat) : Char :=
  "0123456789abcdef".data.getD n '0'

def byteHex (b : Nat) : List Char :=
  [hexDigit (b / 16), hexDigit (b % 16)]

def md5WordHex (w : Nat) : List Char :=
  byteHex (w % 256) ++ byteHex ((w >>> 8) % 256) ++
    byteHex ((w >>> 16) % 256) ++ byteHex ((w >>> 24) % 256)

def md5Bytes (msg : List Nat) : String :=
  let padded := md5Pad msg
  let nblocks := padded.length / 64
  let init : Nat × Nat × Nat × Nat := (1732584193, 4023233417, 2562383102, 271733878)
  let (a, b, c, d) := (List.range nblocks).foldl
    (fun st i => md5Block st ((padded.drop (64 * i)).take 64)) init
  String.mk (md5WordHex a ++ md5WordHex b ++ md5WordHex c ++ md5WordHex d)

/-- Byte extraction for the ASCII strings produced by the JSON serializer
below; on such strings UTF-8 encoding is the identity on character codes. -/
def strBytes (s : String) : List Nat :=
  s.data.map Char.toNat

def md5hex (s : String) : String :=
  md5Bytes (strBytes s)

/-- Reference vector: md5 of the empty string. -/
theorem md5hex_empty :
    md5hex "" = "d41d8cd98f00b204e9800998ecf8427e" := by decide

/-- Reference vector: md5 of the three-byte string abc. -/
theorem md5hex_abc :
    md5hex "abc" = "900150983cd24fb0d6963f7d28e17f72" := by decide

/-! ## JSON values and alerts

An alert is one parsed newline-delimited JSON object, modelled as an
association list with pairwise distinct keys and atomic values. -/

inductive JsonVal where
  | jstr (s : String)
  | jnum (n : Int)
  | jbool (b : Bool)
  | jnull
deriving DecidableEq, Repr

/-- Python truthiness of an atomic JSON value. -/
def pyTruthy : JsonVal → Bool
  | .jstr s => s ≠ ""
  | .jnum n => n ≠ 0
  | .jbool b => b
  | .jnull => false

def uEscape (n : Nat) : List Char :=
  ['\\', 'u', hexDigit (n / 4096 % 16), hexDigit (n / 256 % 16),
   hexDigit (n / 16 % 16), hexDigit (n % 16)]

/-- One character of json.dumps output with the default ensure_ascii. -/
def escChar (c : Char) : List Char :=
  let n := c.toNat
  if c = '"' then ['\\', '"']
  else if c = '\\' then ['\\', '\\']
  else if n = 10 then ['\\', 'n']
  else if n = 13 then ['\\', 'r']
  else if n = 9 then ['\\', 't']
  else if n = 8 then ['\\', 'b']
  else if n = 12 then ['\\', 'f']
  else if n < 32 then uEscape n
  else if n < 127 then [c]
  else if n < 65536 then uEscape n
  else uEscape (55296 + (n - 65536) / 1024) ++ uEscape (56320 + (n - 65536) % 1024)

def jsonEscape (s : String) : String :=
  String.mk (s.data.foldr (fun c acc => escChar c ++ acc) [])

/-- json.dumps of an atomic value. -/
def dumpVal : JsonVal → String
  | .jstr s => "\"" ++ jsonEscape s ++ "\""
  | .jnum n => toString n
  | .jbool true => "true"
  | .jbool false => "false"
  | .jnull => "null"

/-- json.dumps of an object whose keys are supplied already sorted, with the
default separators. The output is ASCII. -/
def dumpObj (fields : List (String × String)) : String :=
  "\x7b" ++ String.intercalate ", "
    (fields.map (fun p => "\"" ++ jsonEscape p.1 ++ "\": " ++ p.2)) ++ "\x7d"

abbrev Alert : Type := List (String × JsonVal)

def alertGet? (a : Alert) (k : String) : Option JsonVal :=
  (List.find? (fun p => p.1 == k) a).map (fun p => p.2)

/-- alert.get(k, default). -/
def alertGetD (a : Alert) (k : String) (d : JsonVal) : JsonVal :=
  (alertGet? a k).getD d

def alertHasKey (a : Alert) (k : String) : Bool :=
  List.any a (fun p => p.1 == k)

def alertLen (a : Alert) : Nat :=
  List.length a

/-- alert.get(k, "") where the caller then uses the value as a str: a present
value of any other JSON type raises (AttributeError or TypeError). -/
def pyStrField (a : Alert) (k : String) : Except Unit String :=
  match alertGet? a k with
  | none => .ok ""
  | some (.jstr s) => .ok s
  | some _ => .error ()

/-- ASCII lowercasing of one character. -/
def asciiLower (c : Char) : Char :=
  if 65 ≤ c.toNat && c.toNat ≤ 90 then Char.ofNat (c.toNat + 32) else c

/-- str.lower, restricted to the ASCII alphabet as in the alert corpus. -/
def pyLower (s : String) : String :=
  String.mk (s.data.map asciiLower)

/-- Python s with the slice of the first n characters. -/
def strTake (s : String) (n : Nat) : String :=
  String.mk (s.data.take n)

/-- Python substring membership test, pat in hay. -/
def containsSub (hay pat : String) : Bool :=
  hay.data.tails.any (fun t => pat.data.isPrefixOf t)

/-- Python str.startswith. -/
def pyStartsWith (s p : String) : Bool :=
  p.data.isPrefixOf s.data

/-! ## Regex findall for the dotted-quad pattern used by the source -/

def takeDigits : List Char → List Char × List Char
  | [] => ([], [])
  | c :: rest =>
    if c.isDigit then
      let (d, r) := takeDigits rest
      (c :: d, r)
    else ([], c :: rest)

/-- One greedy match attempt of the pattern digits dot digits dot digits dot
digits at the head of the input; returns the match and the remainder. -/
def matchIPAt (l : List Char) : Option (List Char × List Char) :=
  let (d1, r1) := takeDigits l
  if d1.isEmpty then none else
  match r1 with
  | '.' :: r2 =>
    let (d2, r3) := takeDigits r2
    if d2.isEmpty then none else
    match r3 with
    | '.' :: r4 =>
      let (d3, r5) := takeDigits r4
      if d3.isEmpty then none else
      match r5 with
      | '.' :: r6 =>
        let (d4, r7) := takeDigits r6
        if d4.isEmpty then none else
        some (d1 ++ '.' :: d2 ++ '.' :: d3 ++ '.' :: d4, r7)
      | _ => none
    | _ => none
  | _ => none

/-- Left-to-right non-overlapping matching, as re.findall does for this
pattern; the fuel equals the input length, which every step consumes. -/
def findIPsAux : Nat → List Char → List String
  | 0, _ => []
  | _, [] => []
  | fuel + 1, c :: rest =>
    match matchIPAt (c :: rest) with
    | some (m, r) => String.mk m :: findIPsAux fuel r
    | none => findIPsAux fuel rest

def findIPs (s : String) : List String :=
  findIPsAux s.data.length s.data

/-! ## get_alert_hash and get_threat_hash -/

/-- AutoResponder.get_alert_hash: md5 of the canonical JSON of the five key
fields, keys sorted. -/
def getAlertHash (a : Alert) : String :=
  md5hex (dumpObj [
    ("attackid", dumpVal (alertGetD a "attackid" (.jstr ""))),
    ("destip", dumpVal (alertGetD a "destip" (.jstr ""))),
    ("proto", dumpVal (alertGetD a "proto" (.jstr ""))),
    ("sourceip", dumpVal (alertGetD a "sourceip" (.jstr ""))),
    ("timestamp", dumpVal (alertGetD a "timestamp" (.jstr "")))])

structure ThreatFields where
  source_ip : JsonVal
  dest_ip : JsonVal
  attack_type : JsonVal
  proto : JsonVal
deriving DecidableEq, Repr

/-- Attack-type extraction of get_threat_hash: substring patterns over the
lowered raw alert, then the attackid field, then unknown. -/
def extractAttackType (a : Alert) (raw_alert : String) : JsonVal :=
  let lraw := pyLower raw_alert
  if containsSub lraw "horizontal port scan" then .jstr "horizontal_port_scan"
  else if containsSub lraw "vertical port scan" then .jstr "vertical_port_scan"
  else if containsSub lraw "brute force" then .jstr "brute_force"
  else if containsSub lraw "denial of service" || containsSub lraw "ddos" then .jstr "dos"
  else if pyTruthy (alertGetD a "attackid" .jnull) then alertGetD a "attackid" (.jstr "unknown")
  else .jstr "unknown"

/-- The threat_fields dictionary of get_threat_hash, given the raw field
already checked to be a string. -/
def threatFieldsCore (a : Alert) (raw_alert : String) : ThreatFields :=
  let source_ip := alertGetD a "sourceip" (.jstr "")
  let dest_ip := alertGetD a "destip" (.jstr "")
  let ips :=
    if !pyTruthy source_ip || !pyTruthy dest_ip then
      match findIPs raw_alert with
      | ip1 :: ip2 :: _ => (JsonVal.jstr ip1, JsonVal.jstr ip2)
      | [ip1] => (JsonVal.jstr ip1, dest_ip)
      | [] => (source_ip, dest_ip)
    else (source_ip, dest_ip)
  { source_ip := ips.1, dest_ip := ips.2,
    attack_type := extractAttackType a raw_alert,
    proto := alertGetD a "proto" (.jstr "") }

/-- json.dumps(threat_fields, sort_keys=True). -/
def dumpThreatFields (tf : ThreatFields) : String :=
  dumpObj [
    ("attack_type", dumpVal tf.attack_type),
    ("dest_ip", dumpVal tf.dest_ip),
    ("proto", dumpVal tf.proto),
    ("source_ip", dumpVal tf.source_ip)]

/-- The threat_fields of AutoResponder.get_threat_hash; raises when the raw
field is present and not a string. -/
def threatFields (a : Alert) : Except Unit ThreatFields := do
  let raw ← pyStrField a "raw"
  .ok (threatFieldsCore a raw)

/-- AutoResponder.get_threat_hash. -/
def getThreatHash (a : Alert) : Except Unit String := do
  let tf ← threatFields a
  .ok (md5hex (dumpThreatFields tf))

/-! ## Confidence filter -/

def highConfidencePatterns : List String := [
  "confidence: 1", "confidence: 0.9", "confidence: 0.8", "confidence: 1.0",
  "threat level: high", "threat_level: high",
  "vertical port scan", "horizontal port scan",
  "denial of service", "ddos", "brute force", "password guessing"]

/-- AutoResponder._is_high_confidence_alert; Except.error models the
AttributeError raised by .lower() on a non-string field. -/
def isHighConfidenceAlert (a : Alert) : Except Unit Bool := do
  let note ← (pyStrField a "note").map pyLower
  if note == "heartbeat" || note == "queued" || note == "completed" then
    pure false
  else if alertLen a ≤ 3 && alertHasKey a "note" then
    pure false
  else do
    let raw_alert ← (pyStrField a "raw").map pyLower
    let description ← (pyStrField a "description").map pyLower
    let threat_level ← (pyStrField a "threat_level").map pyLower
    let alert_text := raw_alert ++ " " ++ description ++ " " ++ threat_level
    pure (highConfidencePatterns.any (fun p => containsSub alert_text p))

/-! ## Deduplication state -/

/-- Configured default of DUPLICATE_DETECTION_WINDOW, in seconds. -/
def DUPLICATE_DETECTION_WINDOW : Int := 300

/-- The mutable dedup state of AutoResponder: the processed-alert hash set
and the threat-hash to first-seen-time mapping. -/
structure RespState where
  processed_alerts : List String
  threat_history : List (String × Int)
deriving DecidableEq, Repr

def lookupAssoc {α : Type} : List (String × α) → String → Option α
  | [], _ => none
  | p :: rest, k => if p.1 == k then some p.2 else lookupAssoc rest k

/-- Dictionary store: replace the binding of k, or append it. -/
def updAssoc {α : Type} (m : List (String × α)) (k : String) (v : α) :
    List (String × α) :=
  match m with
  | [] => [(k, v)]
  | p :: rest => if p.1 == k then (k, v) :: rest else p :: updAssoc rest k v

/-- Set insertion for the processed-alert hash set. -/
def addHash (s : List String) (h : String) : List String :=
  if s.contains h then s else h :: s

/-- AutoResponder.is_duplicate_threat at clock value now. It returns the
duplicate verdict and the successor state, threading the mutations the
source performs on self. -/
def isDuplicateThreat (st : RespState) (a : Alert) (alertHash : String)
    (now : Int) : Except Unit (Bool × RespState) := do
  let threatHash ← getThreatHash a
  match lookupAssoc st.threat_history threatHash with
  | some firstSeen =>
    if now - firstSeen < DUPLICATE_DETECTION_WINDOW then
      .ok (true, { st with processed_alerts := addHash st.processed_alerts alertHash })
    else
      .ok (false, { st with threat_history := updAssoc st.threat_history threatHash now })
  | none =>
      .ok (false, { st with threat_history := updAssoc st.threat_history threatHash now })

/-- One line of the alert file: either unparseable (json.loads raises
JSONDecodeError, which also covers blank lines) or one parsed alert. -/
inductive FileLine where
  | malformed : FileLine
  | parsed (a : Alert) : FileLine

def getNewAlertsGo (now : Int) : RespState → List FileLine → List Alert →
    List Alert × RespState
  | st, [], acc => (acc.reverse, st)
  | st, line :: rest, acc =>
    match line with
    | .malformed => getNewAlertsGo now st rest acc
    | .parsed a =>
      match isHighConfidenceAlert a with
      | .error _ => (acc.reverse, st)
      | .ok false => getNewAlertsGo now st rest acc
      | .ok true =>
        let alertHash := getAlertHash a
        if st.processed_alerts.contains alertHash then
          getNewAlertsGo now st rest acc
        else
          match isDuplicateThreat st a alertHash now with
          | .error _ => (acc.reverse, st)
          | .ok (true, st1) => getNewAlertsGo now st1 rest acc
          | .ok (false, st1) => getNewAlertsGo now st1 rest (a :: acc)

/-- AutoResponder.get_new_alerts at clock value now. The inner handler
swallows only JSONDecodeError, so an exception from the filter or the
duplicate check escapes to the outer handler, which logs and returns the
alerts collected so far with the state as mutated so far. -/
def getNewAlerts (st : RespState) (lines : List FileLine) (now : Int) :
    List Alert × RespState :=
  getNewAlertsGo now st lines []

/-! ## Persistence of the dedup state -/

/-- The JSON document written to processed_alerts.json; ISO-8601 timestamps
are modelled as integer epoch seconds. -/
structure PersistedDoc where
  processed_hashes : List String
  threat_history : List (String × Int)
deriving DecidableEq, Repr

/-- AutoResponder.save_processed_alerts at clock value now: the full
processed set and only the threats still inside the window. -/
def saveProcessedAlerts (st : RespState) (now : Int) : PersistedDoc :=
  { processed_hashes := st.processed_alerts,
    threat_history := st.threat_history.filter
      (fun p => now - p.2 < DUPLICATE_DETECTION_WINDOW) }

/-- AutoResponder.load_processed_alerts from an existing well-formed
document at clock value now: all hashes, and only recent threats. -/
def loadProcessedAlerts (doc : PersistedDoc) (now : Int) : RespState :=
  { processed_alerts := doc.processed_hashes,
    threat_history := doc.threat_history.filter
      (fun p => now - p.2 < DUPLICATE_DETECTION_WINDOW) }

/-- The processed_alerts.add call performed after a successful dispatch. -/
def markProcessed (st : RespState) (a : Alert) : RespState :=
  { st with processed_alerts := addHash st.processed_alerts (getAlertHash a) }

/-- The membership test alert_hash in self.processed_alerts. -/
def isProcessed (st : RespState) (a : Alert) : Bool :=
  st.processed_alerts.contains (getAlertHash a)

/-! ## Target resolver -/

def SERVER_IP : String := "172.31.0.10"
def COMPROMISED_IP : String := "172.30.0.10"

/-- AutoResponder.determine_target_ssh_info. -/
def determineTargetSshInfo (executor_ip : String) : Option (String × String) :=
  if pyStartsWith executor_ip "172.31.0." then some (SERVER_IP, "server")
  else if pyStartsWith executor_ip "172.30.0." then some (COMPROMISED_IP, "compromised")
  else some (SERVER_IP, "server")

/-! ## Dispatcher and per-alert processing -/

/-- One entry of the planner response plan list. -/
structure PlanItem where
  executor_host_ip : String
  plan : String
deriving DecidableEq, Repr

/-- AutoResponder.execute_multiple_plans_parallel: every plan is submitted
to the thread pool, concurrent.futures.wait blocks until all workers have
finished, the per-IP results dictionary is collected (a later plan for the
same IP overwrites the earlier entry), and the conjunction of the recorded
results is returned. The per-plan remote execution outcome (SSH plus
OpenCode, execute_plan_with_opencode) is the oracle execOutcome. -/
def executeMultiplePlansParallel (execOutcome : PlanItem → Bool)
    (plans_list : List PlanItem) : Bool :=
  let results := plans_list.foldl
    (fun r p => updAssoc r p.executor_host_ip (execOutcome p)) []
  results.all (fun pr => pr.2)

/-- Outcome of call_planner plus the response-shape inspection done by
process_alert: a failed or malformed call, a response with a plans key, or
the legacy single-plan shape. -/
inductive PlannerResult where
  | failure : PlannerResult
  | plansKey (plans : List PlanItem) : PlannerResult
  | legacy (plan : String) (executor_host_ip : String) : PlannerResult

/-- AutoResponder.process_alert: plan generation, response normalization,
then the parallel execution of all plans; false on planner failure, on an
empty plan list, and on any failed execution. -/
def processAlert (planner : Alert → PlannerResult)
    (execOutcome : PlanItem → Bool) (a : Alert) : Bool :=
  match planner a with
  | .failure => false
  | .plansKey ps =>
    if ps.isEmpty then false
    else executeMultiplePlansParallel execOutcome ps
  | .legacy p e =>
    let ps := if p ≠ "" && e ≠ "" then [PlanItem.mk e p] else []
    if ps.isEmpty then false
    else executeMultiplePlansParallel execOutcome ps

/-- AutoResponder.run_single_alert_mode: each alert is processed and its
hash is added to the processed set only when process_alert succeeded. -/
def runSingleAlertMode (planner : Alert → PlannerResult)
    (execOutcome : PlanItem → Bool) (st : RespState) (alerts : List Alert) :
    Nat × RespState :=
  alerts.foldl
    (fun acc a =>
      if processAlert planner execOutcome a then
        (acc.1 + 1,
         { acc.2 with processed_alerts := addHash acc.2.processed_alerts (getAlertHash a) })
      else acc)
    (0, st)

/-! ## OpenCode execution-log normalization -/

/-- One stripped line of the OpenCode stdout stream: either a JSON event
with its type and part object, or a non-JSON line. -/
inductive OCLine where
  | jsonEvent (etype : String) (part : List (String × JsonVal)) : OCLine
  | raw (s : String) : OCLine

/-- The metrics aggregated while flattening the OpenCode event stream in
execute_plan_with_opencode, together with the per-event timeline records. -/
@[ext] structure OCAcc where
  llm_calls : Nat
  tool_calls : List JsonVal
  text_outputs : List JsonVal
  errors : List String
  final_output : Option String
  timeline : List (String × List (String × JsonVal))
deriving DecidableEq, Repr

def partGetD (part : List (String × JsonVal)) (k : String) (d : JsonVal) : JsonVal :=
  (lookupAssoc part k).getD d

/-- One iteration of the stdout-parsing loop. Each JSON event is appended to
the structured timeline; str(event) in the errors list is abbreviated to the
event type. -/
def ocStep (acc : OCAcc) (l : OCLine) : OCAcc :=
  match l with
  | .raw s =>
    if s = "" then acc
    else if acc.final_output.isNone then { acc with final_output := some (strTake s 500) }
    else acc
  | .jsonEvent t part =>
    let acc1 :=
      if t == "step_start" then { acc with llm_calls := acc.llm_calls + 1 }
      else if t == "tool_use" then
        { acc with tool_calls := acc.tool_calls ++ [partGetD part "tool" (.jstr "unknown")] }
      else if t == "text" then
        let tc := partGetD part "text" (.jstr "")
        if pyTruthy tc then { acc with text_outputs := acc.text_outputs ++ [tc] } else acc
      else if t == "Error" then { acc with errors := acc.errors ++ [t] }
      else acc
    { acc1 with timeline := acc1.timeline ++ [(t, part)] }

def ocInit : OCAcc :=
  { llm_calls := 0, tool_calls := [], text_outputs := [], errors := [],
    final_output := none, timeline := [] }

def isJStr : JsonVal → Bool
  | .jstr _ => true
  | _ => false

def jStrVal : JsonVal → Option String
  | .jstr s => some s
  | _ => none

/-- str.join over collected values; raises when an element is not a str. -/
def pyJoinStrs (sep : String) (vs : List JsonVal) : Except Unit String :=
  if vs.all isJStr then .ok (String.intercalate sep (vs.filterMap jStrVal))
  else .error ()

/-- Python s with the slice of the last n characters. -/
def strTakeRight (s : String) (n : Nat) : String :=
  String.mk (s.data.drop (s.data.length - n))

/-- The stdout-parsing phase of execute_plan_with_opencode: fold over the
lines, then fill final_output from the space-joined text outputs, last 500
characters, when no non-JSON line supplied one. -/
def parseOpencodeOutput (lines : List OCLine) : Except Unit OCAcc := do
  let acc := lines.foldl ocStep ocInit
  if acc.final_output.isNone && !acc.text_outputs.isEmpty then
    let s ← pyJoinStrs " " acc.text_outputs
    .ok { acc with final_output := some (strTakeRight s 500) }
  else
    .ok acc

/-- The final-output computation as the specification words it: the last 500
characters of the concatenation of the text outputs. -/
def specFinalOutput (texts : List String) : String :=
  strTakeRight (String.join texts) 500

/-! ## Session manager -/

/-- Modelled from the spec: the Session Manager of section 4.5. The
repository's most advanced orchestrator rewrite, the one with
active_sessions and the remote session API, is not included under src;
the auto_responder.py that is included dispatches over SSH without any
session state. The spec says Acquire looks up active_sessions of the
target ip under the shared lock, creates and stores a remote session when
absent, and when present queries remote status, aborts a busy session, and
reuses the same session id whether or not the abort call reports success. -/
structure SessionRegistry where
  active_sessions : List (String × String)
deriving DecidableEq, Repr

/-- Modelled from the spec: Acquire(target_ip) returning a session id. The
remote agent is the oracle triple createSession, remoteBusy, abortOk. -/
def sessionAcquire (createSession : SessionRegistry → String)
    (remoteBusy : String → Bool) (abortOk : String → Bool)
    (reg : SessionRegistry) (target_ip : String) : String × SessionRegistry :=
  match lookupAssoc reg.active_sessions target_ip with
  | some sid =>
      let _ := if remoteBusy sid then abortOk sid else true
      (sid, reg)
  | none =>
      let sid := createSession reg
      (sid, { active_sessions := updAssoc reg.active_sessions target_ip sid })

/-! ## Concrete fixtures

Alerts used by the concrete counterexamples and witnesses below. -/

def alertPortScanTcp : Alert :=
  [("sourceip", .jstr "172.30.0.10"), ("destip", .jstr "172.31.0.10"),
   ("raw", .jstr "Vertical port scan detected. Confidence: 0.9"),
   ("proto", .jstr "tcp"), ("timestamp", .jstr "2024-01-01T00:00:00")]

def alertPortScanUdp : Alert :=
  [("sourceip", .jstr "172.30.0.10"), ("destip", .jstr "172.31.0.10"),
   ("raw", .jstr "Vertical port scan detected. Confidence: 0.9"),
   ("proto", .jstr "udp"), ("timestamp", .jstr "2024-01-01T00:00:10")]

def alertHeartbeat : Alert :=
  [("note", .jstr "heartbeat")]

def alertConf09 : Alert :=
  [("raw", .jstr "Src IP 172.30.0.10 detected. Confidence: 0.9")]

def alertBadRaw : Alert :=
  [("note", .jstr "info"), ("raw", .jnum 5)]

def alertBadNote : Alert :=
  [("note", .jnum 1), ("sourceip", .jstr "10.0.0.1"),
   ("destip", .jstr "10.0.0.2"), ("raw", .jstr "brute force")]

/-! ## Derived vocabulary used by the theorem statements -/

/-- All events of a pure JSON-event stdout stream, in order. -/
def ocEventsOnly (evs : List (String × List (String × JsonVal))) : List OCLine :=
  evs.map (fun e => .jsonEvent e.1 e.2)

/-- The text outputs the parsing loop collects from an event stream: the
truthy text fields of the text-typed events, in stream order. -/
def ocCollectedTexts (evs : List (String × List (String × JsonVal))) : List JsonVal :=
  ((evs.filter (fun e => e.1 == "text")).map
    (fun e => partGetD e.2 "text" (.jstr ""))).filter pyTruthy

/-- The string contents of the collected text outputs. -/
def ocTextStrs (evs : List (String × List (String × JsonVal))) : List String :=
  (ocCollectedTexts evs).filterMap jStrVal

/-- The synthetic stream of the round-trip scenario: one step-start, one
tool-use and one text part. -/
def ocThreeEvs : List (String × List (String × JsonVal)) :=
  [("step_start", []), ("tool_use", [("tool", .jstr "bash")]),
   ("text", [("text", .jstr "All remediated")])]

/-- The parsed alerts of a list of file lines, in order. -/
def alertsOfLines (lines : List FileLine) : List Alert :=
  lines.filterMap (fun l => match l with | .parsed a => some a | .malformed => none)

/-- The key is present and bound to a non-string value. -/
def fieldNonStr (a : Alert) (k : String) : Bool :=
  match alertGet? a k with
  | some (.jstr _) => false
  | some _ => true
  | none => false

/-- Exactly when _is_high_confidence_alert raises: a non-string note always
raises; a non-string raw, description or threat_level raises only when the
note-marker check and the bare-marker check both pass. -/
def filterRaises (a : Alert) : Bool :=
  if fieldNonStr a "note" then true
  else
    let note := pyLower (match alertGet? a "note" with | some (.jstr s) => s | _ => "")
    if note == "heartbeat" || note == "queued" || note == "completed" then false
    else if alertLen a ≤ 3 && alertHasKey a "note" then false
    else fieldNonStr a "raw" || fieldNonStr a "description" || fieldNonStr a "threat_level"

/-! ## Helper lemmas -/

instance {ε α : Type} [DecidableEq ε] [DecidableEq α] :
    DecidableEq (Except ε α) := fun x y => by
  cases x <;> cases y
  case error.error a b =>
    exact if h : a = b then isTrue (by rw [h]) else isFalse (by simp [h])
  case error.ok a b => exact isFalse (by simp)
  case ok.error a b => exact isFalse (by simp)
  case ok.ok a b =>
    exact if h : a = b then isTrue (by rw [h]) else isFalse (by simp [h])

theorem lookupAssoc_updAssoc_self {α : Type} (m : List (String × α)) (k : String) (v : α) :
    lookupAssoc (updAssoc m k v) k = some v := by
  induction m with
  | nil => simp [updAssoc, lookupAssoc]
  | cons p rest ih =>
    by_cases h : p.1 == k <;> simp [updAssoc, h, lookupAssoc, ih]

theorem contains_addHash_self (s : List String) (h : String) :
    (addHash s h).contains h = true := by
  by_cases hm : h ∈ s <;> simp [addHash, hm]

theorem all_snd_updAssoc_false (m : List (String × Bool)) (k : String) :
    (updAssoc m k false).all (fun pr => pr.2) = false := by
  induction m with
  | nil => simp [updAssoc]
  | cons p rest ih =>
    by_cases h : p.1 == k <;> simp [updAssoc, h, ih]

theorem all_snd_updAssoc_true (m : List (String × Bool)) (k : String)
    (hm : m.all (fun pr => pr.2) = true) :
    (updAssoc m k true).all (fun pr => pr.2) = true := by
  induction m with
  | nil => simp [updAssoc]
  | cons p rest ih =>
    rw [List.all_cons, Bool.and_eq_true] at hm
    by_cases h : p.1 == k <;> simp [updAssoc, h, hm.1, hm.2, ih hm.2]

theorem dispatch_foldl_all_true (f : PlanItem → Bool) (plans : List PlanItem)
    (acc : List (String × Bool)) (hacc : acc.all (fun pr => pr.2) = true)
    (hf : ∀ p ∈ plans, f p = true) :
    (plans.foldl (fun r p => updAssoc r p.executor_host_ip (f p)) acc).all
      (fun pr => pr.2) = true := by
  induction plans generalizing acc with
  | nil => simpa using hacc
  | cons p rest ih =>
    have hp : f p = true := hf p (by simp)
    simp only [List.foldl_cons]
    rw [hp] at *
    exact ih (updAssoc acc p.executor_host_ip true)
      (by rw [hp]; exact all_snd_updAssoc_true acc _ hacc)
      (fun q hq => hf q (by simp [hq]))

/-! ## Claim C2 -/

/-- C2 is false on the code: execute_multiple_plans_parallel does not return
before remote execution completes. Its return value is a function of the
per-plan execution outcomes (with concurrent.futures.wait it blocks until
all workers finish), so on the same single-plan list an all-succeed outcome
and an all-fail outcome yield different return values. -/
theorem dispatcher_result_depends_on_execution :
    executeMultiplePlansParallel (fun _ => true)
      [PlanItem.mk "172.31.0.10" "block the attacker"] = true ∧
    executeMultiplePlansParallel (fun _ => false)
      [PlanItem.mk "172.31.0.10" "block the attacker"] = false ∧
    ¬ (∀ f g : PlanItem → Bool,
        executeMultiplePlansParallel f [PlanItem.mk "172.31.0.10" "block the attacker"] =
        executeMultiplePlansParallel g [PlanItem.mk "172.31.0.10" "block the attacker"]) := by
  refine ⟨rfl, rfl, fun h => ?_⟩
  exact absurd (h (fun _ => true) (fun _ => false)) (by decide)

/-- C2 amended: for every non-empty list of plans the dispatcher waits for
every per-plan worker to finish and returns the conjunction of the recorded
per-IP results: with a single plan it returns exactly that plan's execution
outcome, it returns true when every execution succeeds, and it returns
false whenever the final plan's execution fails; the main alert-processing
loop therefore blocks on remote command completion. -/
theorem dispatcher_waits_for_all_workers :
    (∀ (f : PlanItem → Bool) (p : PlanItem),
      executeMultiplePlansParallel f [p] = f p) ∧
    (∀ (f : PlanItem → Bool) (plans : List PlanItem),
      (∀ p ∈ plans, f p = true) → executeMultiplePlansParallel f plans = true) ∧
    (∀ (f : PlanItem → Bool) (ps : List PlanItem) (p : PlanItem),
      f p = false → executeMultiplePlansParallel f (ps ++ [p]) = false) := by
  refine ⟨?_, ?_, ?_⟩
  · intro f p
    simp [executeMultiplePlansParallel, updAssoc]
  · intro f plans hf
    exact dispatch_foldl_all_true f plans [] rfl hf
  · intro f ps p hp
    unfold executeMultiplePlansParallel
    rw [List.foldl_append]
    simp only [List.foldl_cons, List.foldl_nil, hp]
    exact all_snd_updAssoc_false _ _

/-- Witness for the amended C2 theorem at a concrete two-plan list whose
final plan fails. -/
theorem dispatcher_waits_witness :
    executeMultiplePlansParallel (fun _ => false)
      ([PlanItem.mk "172.31.0.10" "isolate the host"] ++
        [PlanItem.mk "172.30.0.10" "kill the scan"]) = false :=
  dispatcher_waits_for_all_workers.2.2 _ _ _ rfl

/-! ## Claim C3 -/

/-- C3 is false on the code: is_duplicate_threat is not a pure read. On a
fresh threat it returns false and records the threat hash in
threat_history, so the dedup state changes. -/
theorem is_duplicate_threat_mutates :
    isDuplicateThreat ⟨[], []⟩ [("raw", JsonVal.jstr "brute force")] "ah0" 0 =
      .ok (false, ⟨[], [("3b676e841606272b9993a02c75a8fea7", 0)]⟩) ∧
    (⟨[], [("3b676e841606272b9993a02c75a8fea7", 0)]⟩ : RespState) ≠ ⟨[], []⟩ := by
  exact ⟨by decide, by decide⟩

theorem isDuplicateThreat_dup_case (st : RespState) (a : Alert)
    (alertHash th : String) (now t0 : Int)
    (hth : getThreatHash a = .ok th)
    (hl : lookupAssoc st.threat_history th = some t0)
    (hw : now - t0 < DUPLICATE_DETECTION_WINDOW) :
    isDuplicateThreat st a alertHash now =
      .ok (true, ⟨addHash st.processed_alerts alertHash, st.threat_history⟩) := by
  simp [isDuplicateThreat, hth, hl, hw, bind, Except.bind]

theorem isDuplicateThreat_expired_case (st : RespState) (a : Alert)
    (alertHash th : String) (now t0 : Int)
    (hth : getThreatHash a = .ok th)
    (hl : lookupAssoc st.threat_history th = some t0)
    (hw : ¬ (now - t0 < DUPLICATE_DETECTION_WINDOW)) :
    isDuplicateThreat st a alertHash now =
      .ok (false, ⟨st.processed_alerts, updAssoc st.threat_history th now⟩) := by
  simp [isDuplicateThreat, hth, hl, hw, bind, Except.bind]

theorem isDuplicateThreat_fresh_case (st : RespState) (a : Alert)
    (alertHash th : String) (now : Int)
    (hth : getThreatHash a = .ok th)
    (hl : lookupAssoc st.threat_history th = none) :
    isDuplicateThreat st a alertHash now =
      .ok (false, ⟨st.processed_alerts, updAssoc st.threat_history th now⟩) := by
  simp [isDuplicateThreat, hth, hl, bind, Except.bind]

/-- C3 amended: is_duplicate_threat is a pure read in neither verdict. When
the threat hash is in history within the window it returns true and adds
the alert hash to the processed set, leaving threat_history unchanged; when
the entry is absent or expired it returns false and rebinds the threat hash
to now, leaving the processed set unchanged. -/
theorem is_duplicate_threat_state_effect :
    ∀ (st : RespState) (a : Alert) (alertHash th : String) (now : Int),
      getThreatHash a = .ok th →
      (∀ t0 : Int, lookupAssoc st.threat_history th = some t0 →
        now - t0 < DUPLICATE_DETECTION_WINDOW →
        isDuplicateThreat st a alertHash now =
          .ok (true, ⟨addHash st.processed_alerts alertHash, st.threat_history⟩)) ∧
      (∀ t0 : Int, lookupAssoc st.threat_history th = some t0 →
        ¬ (now - t0 < DUPLICATE_DETECTION_WINDOW) →
        isDuplicateThreat st a alertHash now =
          .ok (false, ⟨st.processed_alerts, updAssoc st.threat_history th now⟩)) ∧
      (lookupAssoc st.threat_history th = none →
        isDuplicateThreat st a alertHash now =
          .ok (false, ⟨st.processed_alerts, updAssoc st.threat_history th now⟩)) := by
  intro st a alertHash th now hth
  exact ⟨fun t0 hl hw => isDuplicateThreat_dup_case st a alertHash th now t0 hth hl hw,
    fun t0 hl hw => isDuplicateThreat_expired_case st a alertHash th now t0 hth hl hw,
    fun hl => isDuplicateThreat_fresh_case st a alertHash th now hth hl⟩

/-- Witness for the amended C3 theorem on a concrete fresh threat. -/
theorem is_duplicate_threat_state_effect_witness :
    isDuplicateThreat ⟨["h1"], []⟩ [("raw", JsonVal.jstr "brute force")] "ah1" 7 =
      .ok (false, ⟨["h1"], [("3b676e841606272b9993a02c75a8fea7", 7)]⟩) :=
  (is_duplicate_threat_state_effect ⟨["h1"], []⟩ _ "ah1"
    "3b676e841606272b9993a02c75a8fea7" 7 (by decide)).2.2 rfl

/-! ## Claim C5 -/

/-- C5: two sequential dispatches to the same target IP never hold two
distinct active session identifiers for that IP: the second Acquire returns
the same session id as the first, the registry maps the IP to exactly that
id afterwards, and the second Acquire leaves the registry unchanged. -/
theorem session_acquire_reuse :
    ∀ (createSession : SessionRegistry → String) (remoteBusy abortOk : String → Bool)
      (reg : SessionRegistry) (ip : String),
      (sessionAcquire createSession remoteBusy abortOk
        (sessionAcquire createSession remoteBusy abortOk reg ip).2 ip).1 =
        (sessionAcquire createSession remoteBusy abortOk reg ip).1 ∧
      lookupAssoc (sessionAcquire createSession remoteBusy abortOk
        (sessionAcquire createSession remoteBusy abortOk reg ip).2 ip).2.active_sessions ip =
        some (sessionAcquire createSession remoteBusy abortOk reg ip).1 ∧
      (sessionAcquire createSession remoteBusy abortOk
        (sessionAcquire createSession remoteBusy abortOk reg ip).2 ip).2 =
        (sessionAcquire createSession remoteBusy abortOk reg ip).2 := by
  intro createSession remoteBusy abortOk reg ip
  cases h : lookupAssoc reg.active_sessions ip with
  | some sid =>
    refine ⟨?_, ?_, ?_⟩ <;> simp [sessionAcquire, h]
  | none =>
    have h2 := lookupAssoc_updAssoc_self reg.active_sessions ip (createSession reg)
    refine ⟨?_, ?_, ?_⟩ <;> simp [sessionAcquire, h, h2]

/-! ## Claim C7 -/

/-- C7: after MarkProcessed the alert is reported processed, this survives a
Persist followed by reloading the persisted document into a fresh state,
and Persist writes the full processed set but only the non-expired subset
of the threat history. -/
theorem mark_persist_reload :
    ∀ (st : RespState) (a : Alert) (t1 t2 : Int),
      isProcessed (markProcessed st a) a = true ∧
      isProcessed (loadProcessedAlerts (saveProcessedAlerts (markProcessed st a) t1) t2) a = true ∧
      (saveProcessedAlerts st t1).processed_hashes = st.processed_alerts ∧
      (saveProcessedAlerts st t1).threat_history =
        st.threat_history.filter (fun p => t1 - p.2 < DUPLICATE_DETECTION_WINDOW) := by
  intro st a t1 t2
  refine ⟨?_, ?_, rfl, rfl⟩
  · exact contains_addHash_self _ _
  · exact contains_addHash_self _ _

/-! ## Claim C9 -/

theorem startsWith_17230_not_17231 (ip : String)
    (h : pyStartsWith ip "172.30.0." = true) :
    pyStartsWith ip "172.31.0." = false := by
  unfold pyStartsWith at h ⊢
  by_contra hne
  rw [Bool.not_eq_false] at hne
  rw [List.isPrefixOf_iff_prefix] at h hne
  have h1 := List.prefix_iff_eq_take.mp h
  have h2 := List.prefix_iff_eq_take.mp hne
  have l30 : ("172.30.0.".data).length = 9 := by decide
  have l31 : ("172.31.0.".data).length = 9 := by decide
  rw [l30] at h1
  rw [l31] at h2
  exact absurd (h1.trans h2.symm) (by decide)

/-- C9: determine_target_ssh_info is total: it answers the server pair on
the 172.31.0. prefix, the compromised pair on the 172.30.0. prefix, the
server pair otherwise, and never returns None, so the callers' unknown
target error branches guarded on a falsy result are unreachable. -/
theorem determine_target_total :
    (∀ ip : String, (determineTargetSshInfo ip).isSome = true) ∧
    (∀ ip : String, pyStartsWith ip "172.31.0." = true →
      determineTargetSshInfo ip = some (SERVER_IP, "server")) ∧
    (∀ ip : String, pyStartsWith ip "172.30.0." = true →
      determineTargetSshInfo ip = some (COMPROMISED_IP, "compromised")) ∧
    (∀ ip : String, pyStartsWith ip "172.31.0." = false →
      pyStartsWith ip "172.30.0." = false →
      determineTargetSshInfo ip = some (SERVER_IP, "server")) := by
  refine ⟨?_, ?_, ?_, ?_⟩
  · intro ip
    unfold determineTargetSshInfo
    split <;> try split
    all_goals rfl
  · intro ip h
    simp [determineTargetSshInfo, h]
  · intro ip h
    simp [determineTargetSshInfo, h, startsWith_17230_not_17231 ip h]
  · intro ip h1 h2
    simp [determineTargetSshInfo, h1, h2]

/-- Witness for C9 at a concrete compromised-subnet address. -/
theorem determine_target_total_witness :
    determineTargetSshInfo "172.30.0.55" = some (COMPROMISED_IP, "compromised") :=
  determine_target_total.2.2.1 "172.30.0.55" (by decide)

/-! ## Claims C1 and C4 -/

theorem getThreatHash_of_fields (a : Alert) (tf : ThreatFields)
    (h : threatFields a = .ok tf) :
    getThreatHash a = .ok (md5hex (dumpThreatFields tf)) := by
  simp [getThreatHash, h, bind, Except.bind]

theorem getNewAlerts_single_fresh (st : RespState) (A : Alert) (t : Int) (th : String)
    (hfil : isHighConfidenceAlert A = .ok true)
    (hth : getThreatHash A = .ok th)
    (hproc : st.processed_alerts.contains (getAlertHash A) = false)
    (hlook : lookupAssoc st.threat_history th = none) :
    getNewAlerts st [.parsed A] t =
      ([A], ⟨st.processed_alerts, updAssoc st.threat_history th t⟩) := by
  have hdup := isDuplicateThreat_fresh_case st A (getAlertHash A) th t hth hlook
  have hproc2 : getAlertHash A ∉ st.processed_alerts := by simpa using hproc
  simp [getNewAlerts, getNewAlertsGo, hfil, hproc2, hdup]

theorem getNewAlerts_single_dup (st : RespState) (A : Alert) (t t0 : Int) (th : String)
    (hfil : isHighConfidenceAlert A = .ok true)
    (hth : getThreatHash A = .ok th)
    (hproc : st.processed_alerts.contains (getAlertHash A) = false)
    (hlook : lookupAssoc st.threat_history th = some t0)
    (hw : t - t0 < DUPLICATE_DETECTION_WINDOW) :
    getNewAlerts st [.parsed A] t =
      ([], ⟨addHash st.processed_alerts (getAlertHash A), st.threat_history⟩) := by
  have hdup := isDuplicateThreat_dup_case st A (getAlertHash A) th t t0 hth hlook hw
  have hproc2 : getAlertHash A ∉ st.processed_alerts := by simpa using hproc
  simp [getNewAlerts, getNewAlertsGo, hfil, hproc2, hdup]

/-- C1 is false on the code: for a fresh actionable alert, the duplicate
check performed inside get_new_alerts already records the threat identity
in threat_history before any plan generation or dispatch; after a poll in
which the planner failed (RecordThreat never explicitly called, alert left
unmarked), the next poll within the window classifies the same alert as a
duplicate threat and returns nothing, so the alert is not dispatched
again. -/
theorem threat_recorded_before_dispatch :
    (getNewAlerts ⟨[], []⟩ [.parsed alertPortScanTcp] 0).2.threat_history ≠ [] ∧
    runSingleAlertMode (fun _ => PlannerResult.failure) (fun _ => false)
        (getNewAlerts ⟨[], []⟩ [.parsed alertPortScanTcp] 0).2
        (getNewAlerts ⟨[], []⟩ [.parsed alertPortScanTcp] 0).1 =
      (0, (getNewAlerts ⟨[], []⟩ [.parsed alertPortScanTcp] 0).2) ∧
    (getNewAlerts (getNewAlerts ⟨[], []⟩ [.parsed alertPortScanTcp] 0).2
        [.parsed alertPortScanTcp] 5).1 = [] := by
  exact ⟨by decide, by decide, by decide⟩

/-- C1 amended: when processing fails for an actionable alert, whether
because the planner call fails or because every execution attempt fails
(process_alert returns false in both cases), the alert is indeed left
unmarked in the processed set by the failed attempt; but the threat
history was already updated for the alert's threat identity during the
duplicate check of the same poll, so on the next poll within the dedup
window the alert is classified as a duplicate threat, added to the
processed set, and not dispatched again. -/
theorem failed_dispatch_not_retried :
    ∀ (A : Alert) (st : RespState) (t0 t1 : Int) (th : String)
      (planner : Alert → PlannerResult) (execOutcome : PlanItem → Bool),
      isHighConfidenceAlert A = .ok true →
      getThreatHash A = .ok th →
      st.processed_alerts.contains (getAlertHash A) = false →
      lookupAssoc st.threat_history th = none →
      processAlert planner execOutcome A = false →
      t1 - t0 < DUPLICATE_DETECTION_WINDOW →
      getNewAlerts st [.parsed A] t0 =
        ([A], ⟨st.processed_alerts, updAssoc st.threat_history th t0⟩) ∧
      runSingleAlertMode planner execOutcome
          ⟨st.processed_alerts, updAssoc st.threat_history th t0⟩ [A] =
        (0, ⟨st.processed_alerts, updAssoc st.threat_history th t0⟩) ∧
      getNewAlerts ⟨st.processed_alerts, updAssoc st.threat_history th t0⟩
          [.parsed A] t1 =
        ([], ⟨addHash st.processed_alerts (getAlertHash A),
              updAssoc st.threat_history th t0⟩) ∧
      (addHash st.processed_alerts (getAlertHash A)).contains (getAlertHash A) = true := by
  intro A st t0 t1 th planner execOutcome hfil hth hproc hlook hfail hw
  refine ⟨getNewAlerts_single_fresh st A t0 th hfil hth hproc hlook, ?_, ?_, ?_⟩
  · simp [runSingleAlertMode, hfail]
  · exact getNewAlerts_single_dup _ A t1 t0 th hfil hth hproc
      (lookupAssoc_updAssoc_self st.threat_history th t0) hw
  · exact contains_addHash_self _ _

/-- Witness for the amended C1 theorem, instantiated at the
execution-failure mode: the planner succeeds with one plan for the
concrete port-scan alert, every execution attempt fails, and the alert is
suppressed as a duplicate at time 5. -/
theorem failed_dispatch_not_retried_witness :
    getNewAlerts ⟨[], updAssoc [] "dece38fc6a3f80142ea2372c089d4f31" 0⟩
        [.parsed alertPortScanTcp] 5 =
      ([], ⟨addHash [] (getAlertHash alertPortScanTcp),
            updAssoc [] "dece38fc6a3f80142ea2372c089d4f31" 0⟩) :=
  (failed_dispatch_not_retried alertPortScanTcp ⟨[], []⟩ 0 5
    "dece38fc6a3f80142ea2372c089d4f31"
    (fun _ => PlannerResult.plansKey [PlanItem.mk "172.31.0.10" "block the attacker"])
    (fun _ => false) (by decide) (by decide) rfl rfl (by decide) (by decide)).2.2.1

/-- The planner-failure mode of the amended C1 theorem's failure
hypothesis: a failed planner call also makes process_alert return false,
so the same suppression applies to plan-generation failures. -/
theorem planner_failure_fails_processing :
    ∀ (execOutcome : PlanItem → Bool) (A : Alert),
      processAlert (fun _ => PlannerResult.failure) execOutcome A = false := by
  intro execOutcome A
  rfl

/-- C4 is false on the code as stated: the threat hash also covers the
proto field, which the claim leaves unconstrained. The two fixture alerts
have identical extracted source IP, destination IP and normalized attack
type but different timestamps, yet after the first is recorded at time 0,
checking the second at time 10, inside the window, yields false because
the protocols differ. -/
theorem threat_window_proto_counterexample :
    (threatFields alertPortScanTcp).map (fun tf => tf.source_ip) =
      (threatFields alertPortScanUdp).map (fun tf => tf.source_ip) ∧
    (threatFields alertPortScanTcp).map (fun tf => tf.dest_ip) =
      (threatFields alertPortScanUdp).map (fun tf => tf.dest_ip) ∧
    (threatFields alertPortScanTcp).map (fun tf => tf.attack_type) =
      (threatFields alertPortScanUdp).map (fun tf => tf.attack_type) ∧
    alertGetD alertPortScanTcp "timestamp" (.jstr "") ≠
      alertGetD alertPortScanUdp "timestamp" (.jstr "") ∧
    isDuplicateThreat ⟨[], []⟩ alertPortScanTcp "ah1" 0 =
      .ok (false, ⟨[], [("dece38fc6a3f80142ea2372c089d4f31", 0)]⟩) ∧
    (isDuplicateThreat ⟨[], [("dece38fc6a3f80142ea2372c089d4f31", 0)]⟩
        alertPortScanUdp "ah2" 10).map (fun r => r.1) = .ok false := by
  refine ⟨by decide, by decide, by decide, by decide, by decide, by decide⟩

/-- C4 amended: for every two alerts with identical threat fields, that is
identical extracted source IP, destination IP, normalized attack type and
proto field, if the first records the threat at time t0 then the duplicate
check on the second returns true at any time t with t0 le t lt t0 plus
window, and false, rearming the entry, at any t ge t0 plus window. -/
theorem threat_window_suppression :
    ∀ (A1 A2 : Alert) (st : RespState) (t0 t : Int) (tf : ThreatFields)
      (ah1 ah2 : String),
      threatFields A1 = .ok tf →
      threatFields A2 = .ok tf →
      lookupAssoc st.threat_history (md5hex (dumpThreatFields tf)) = none →
      isDuplicateThreat st A1 ah1 t0 =
        .ok (false, ⟨st.processed_alerts,
          updAssoc st.threat_history (md5hex (dumpThreatFields tf)) t0⟩) ∧
      (t0 ≤ t → t - t0 < DUPLICATE_DETECTION_WINDOW →
        isDuplicateThreat ⟨st.processed_alerts,
            updAssoc st.threat_history (md5hex (dumpThreatFields tf)) t0⟩ A2 ah2 t =
          .ok (true, ⟨addHash st.processed_alerts ah2,
            updAssoc st.threat_history (md5hex (dumpThreatFields tf)) t0⟩)) ∧
      (t0 + DUPLICATE_DETECTION_WINDOW ≤ t →
        isDuplicateThreat ⟨st.processed_alerts,
            updAssoc st.threat_history (md5hex (dumpThreatFields tf)) t0⟩ A2 ah2 t =
          .ok (false, ⟨st.processed_alerts,
            updAssoc (updAssoc st.threat_history (md5hex (dumpThreatFields tf)) t0)
              (md5hex (dumpThreatFields tf)) t⟩)) := by
  intro A1 A2 st t0 t tf ah1 ah2 h1 h2 hlook
  have hh1 := getThreatHash_of_fields A1 tf h1
  have hh2 := getThreatHash_of_fields A2 tf h2
  have hself := lookupAssoc_updAssoc_self st.threat_history
    (md5hex (dumpThreatFields tf)) t0
  refine ⟨isDuplicateThreat_fresh_case st A1 ah1 _ t0 hh1 hlook, ?_, ?_⟩
  · intro _ hw
    exact isDuplicateThreat_dup_case _ A2 ah2 _ t t0 hh2 hself hw
  · intro hge
    exact isDuplicateThreat_expired_case _ A2 ah2 _ t t0 hh2 hself (by omega)

/-- Witness for the amended C4 theorem: two same-protocol port-scan alerts
with different timestamps; the second is reported a duplicate at time 10. -/
theorem threat_window_suppression_witness :
    isDuplicateThreat ⟨[], updAssoc []
        (md5hex (dumpThreatFields (threatFieldsCore alertPortScanTcp
          "Vertical port scan detected. Confidence: 0.9"))) 0⟩
      [("sourceip", .jstr "172.30.0.10"), ("destip", .jstr "172.31.0.10"),
       ("raw", .jstr "Vertical port scan detected. Confidence: 0.9"),
       ("proto", .jstr "tcp"), ("timestamp", .jstr "2024-01-01T00:02:00")] "ah2" 10 =
      .ok (true, ⟨addHash [] "ah2", updAssoc []
        (md5hex (dumpThreatFields (threatFieldsCore alertPortScanTcp
          "Vertical port scan detected. Confidence: 0.9"))) 0⟩) :=
  ((threat_window_suppression alertPortScanTcp
    [("sourceip", .jstr "172.30.0.10"), ("destip", .jstr "172.31.0.10"),
     ("raw", .jstr "Vertical port scan detected. Confidence: 0.9"),
     ("proto", .jstr "tcp"), ("timestamp", .jstr "2024-01-01T00:02:00")]
    ⟨[], []⟩ 0 10 (threatFieldsCore alertPortScanTcp
      "Vertical port scan detected. Confidence: 0.9") "ah1" "ah2"
    rfl rfl rfl).2.1 (by decide) (by decide))

/-! ## Claim C6 -/

/-- C6: for alerts whose note, raw, description and threat_level fields are
absent or strings, the filter classifies an alert actionable iff (a) its
lowered note is none of heartbeat, queued, completed, (b) it is not a bare
system marker (at most three keys, one of them note), and (c) the combined
lowered raw, description and threat_level text contains one of the fixed
high-confidence substrings; in particular the alert whose raw field holds
Confidence: 0.9 is actionable and the bare heartbeat marker is not. -/
theorem confidence_filter_characterization :
    (∀ (a : Alert) (note raw description threat_level : String),
      pyStrField a "note" = .ok note →
      pyStrField a "raw" = .ok raw →
      pyStrField a "description" = .ok description →
      pyStrField a "threat_level" = .ok threat_level →
      (isHighConfidenceAlert a = .ok true ↔
        ((pyLower note ≠ "heartbeat" ∧ pyLower note ≠ "queued" ∧
            pyLower note ≠ "completed") ∧
         ¬ (alertLen a ≤ 3 ∧ alertHasKey a "note" = true) ∧
         ∃ p ∈ highConfidencePatterns,
           containsSub (pyLower raw ++ " " ++ pyLower description ++ " " ++
             pyLower threat_level) p = true))) ∧
    isHighConfidenceAlert alertConf09 = .ok true ∧
    isHighConfidenceAlert alertHeartbeat = .ok false := by
  refine ⟨?_, by decide, by decide⟩
  intro a note raw description threat_level hnote hraw hdesc htl
  simp only [isHighConfidenceAlert, hnote, hraw, hdesc, htl, Except.map, bind,
    Except.bind]
  split_ifs with h1 h2
  · simp only [Bool.or_eq_true, beq_iff_eq] at h1
    simp only [pure, Except.pure, Except.ok.injEq, Bool.false_eq_true, false_iff]
    tauto
  · simp only [Bool.and_eq_true, decide_eq_true_eq] at h2
    simp only [pure, Except.pure, Except.ok.injEq, Bool.false_eq_true, false_iff]
    tauto
  · simp only [Bool.or_eq_true, beq_iff_eq] at h1
    simp only [Bool.and_eq_true, decide_eq_true_eq] at h2
    simp only [pure, Except.pure, Except.ok.injEq, List.any_eq_true]
    constructor
    · intro h
      exact ⟨by tauto, by tauto, h⟩
    · intro h
      exact h.2.2

/-- Witness for the C6 characterization at the concrete actionable alert. -/
theorem confidence_filter_witness :
    isHighConfidenceAlert alertConf09 = .ok true ↔
      ((pyLower "" ≠ "heartbeat" ∧ pyLower "" ≠ "queued" ∧ pyLower "" ≠ "completed") ∧
       ¬ (alertLen alertConf09 ≤ 3 ∧ alertHasKey alertConf09 "note" = true) ∧
       ∃ p ∈ highConfidencePatterns,
         containsSub (pyLower "Src IP 172.30.0.10 detected. Confidence: 0.9" ++ " " ++
           pyLower "" ++ " " ++ pyLower "") p = true) :=
  confidence_filter_characterization.1 alertConf09 ""
    "Src IP 172.30.0.10 detected. Confidence: 0.9" "" "" rfl rfl rfl rfl

/-! ## Claim C8 -/

theorem ocFold_spec (evs : List (String × List (String × JsonVal))) :
    ∀ acc : OCAcc, (ocEventsOnly evs).foldl ocStep acc =
      { llm_calls := acc.llm_calls + (evs.filter (fun e => e.1 == "step_start")).length,
        tool_calls := acc.tool_calls ++ (evs.filter (fun e => e.1 == "tool_use")).map
          (fun e => partGetD e.2 "tool" (.jstr "unknown")),
        text_outputs := acc.text_outputs ++ ocCollectedTexts evs,
        errors := acc.errors ++ (evs.filter (fun e => e.1 == "Error")).map (fun e => e.1),
        final_output := acc.final_output,
        timeline := acc.timeline ++ evs } := by
  induction evs with
  | nil =>
    intro acc
    simp [ocEventsOnly, ocCollectedTexts]
  | cons e rest ih =>
    intro acc
    obtain ⟨t, part⟩ := e
    simp only [ocEventsOnly, List.map_cons, List.foldl_cons]
    rw [show List.map (fun e => OCLine.jsonEvent e.1 e.2) rest = ocEventsOnly rest from rfl]
    rw [ih]
    by_cases h1 : t = "step_start"
    · subst h1
      simp [ocStep, ocCollectedTexts, List.filter_cons]
      omega
    · by_cases h2 : t = "tool_use"
      · subst h2
        simp [ocStep, ocCollectedTexts, h1, List.filter_cons]
      · by_cases h3 : t = "text"
        · subst h3
          by_cases h4 : pyTruthy (partGetD part "text" (.jstr ""))
          · simp [ocStep, ocCollectedTexts, h1, h2, h4, List.filter_cons]
          · simp [ocStep, ocCollectedTexts, h1, h2, h4, List.filter_cons]
        · by_cases h5 : t = "Error"
          · subst h5
            simp [ocStep, ocCollectedTexts, h1, h2, h3, List.filter_cons]
          · simp [ocStep, ocCollectedTexts, beq_iff_eq, h1, h2, h3, h5,
              List.filter_cons]

theorem pyJoinStrs_ok (sep : String) (vs : List JsonVal)
    (h : vs.all isJStr = true) :
    pyJoinStrs sep vs = .ok (String.intercalate sep (vs.filterMap jStrVal)) := by
  simp [pyJoinStrs, h]

/-- C8 amended: over a pure JSON-event stream, the parsing loop counts one
reasoning step per step-start event, collects the tool name of each
tool-use event in stream order, logs every event to the timeline in the
original order, and, when every collected text output is a string, sets
the final output to the last 500 characters of the space-joined text
outputs, or to none when no text was collected; on the synthetic stream
with one step-start, one tool-use and one text part it produces exactly
one record of each type, in original order, with a non-nil final output
containing the text content. -/
theorem log_normalizer_metrics :
    (∀ evs : List (String × List (String × JsonVal)),
      (ocCollectedTexts evs).all isJStr = true →
      parseOpencodeOutput (ocEventsOnly evs) = .ok
        { llm_calls := (evs.filter (fun e => e.1 == "step_start")).length,
          tool_calls := (evs.filter (fun e => e.1 == "tool_use")).map
            (fun e => partGetD e.2 "tool" (.jstr "unknown")),
          text_outputs := ocCollectedTexts evs,
          errors := (evs.filter (fun e => e.1 == "Error")).map (fun e => e.1),
          final_output := if ocCollectedTexts evs = [] then none
            else some (strTakeRight (String.intercalate " " (ocTextStrs evs)) 500),
          timeline := evs }) ∧
    parseOpencodeOutput (ocEventsOnly ocThreeEvs) = .ok
      { llm_calls := 1, tool_calls := [.jstr "bash"],
        text_outputs := [.jstr "All remediated"], errors := [],
        final_output := some "All remediated", timeline := ocThreeEvs } ∧
    containsSub "All remediated" "All remediated" = true := by
  refine ⟨?_, by decide, by decide⟩
  intro evs hstr
  unfold parseOpencodeOutput
  rw [ocFold_spec evs ocInit]
  simp only [ocInit, Nat.zero_add, List.nil_append, bind, Except.bind]
  by_cases hempty : ocCollectedTexts evs = []
  · simp [hempty]
  · have hjoin := pyJoinStrs_ok " " (ocCollectedTexts evs) hstr
    have hne : (ocCollectedTexts evs).isEmpty = false := by
      simpa [List.isEmpty_iff] using hempty
    simp [hne, hjoin, hempty, ocTextStrs]

/-- Witness for the amended C8 theorem at the synthetic three-part
stream. -/
theorem log_normalizer_metrics_witness :
    parseOpencodeOutput (ocEventsOnly ocThreeEvs) = .ok
      { llm_calls := (ocThreeEvs.filter (fun e => e.1 == "step_start")).length,
        tool_calls := (ocThreeEvs.filter (fun e => e.1 == "tool_use")).map
          (fun e => partGetD e.2 "tool" (.jstr "unknown")),
        text_outputs := ocCollectedTexts ocThreeEvs,
        errors := (ocThreeEvs.filter (fun e => e.1 == "Error")).map (fun e => e.1),
        final_output := if ocCollectedTexts ocThreeEvs = [] then none
          else some (strTakeRight (String.intercalate " " (ocTextStrs ocThreeEvs)) 500),
        timeline := ocThreeEvs } :=
  log_normalizer_metrics.1 ocThreeEvs (by decide)

/-- C8 is false on the code as universally stated: the final output is the
space-joined text outputs, not their concatenation. With two text parts a
and b the code yields a-space-b while the last 500 characters of the
concatenation are ab. -/
theorem final_output_not_concatenation :
    parseOpencodeOutput [.jsonEvent "text" [("text", .jstr "a")],
        .jsonEvent "text" [("text", .jstr "b")]] =
      .ok { llm_calls := 0, tool_calls := [],
            text_outputs := [.jstr "a", .jstr "b"], errors := [],
            final_output := some "a b",
            timeline := [("text", [("text", .jstr "a")]),
                         ("text", [("text", .jstr "b")])] } ∧
    specFinalOutput ["a", "b"] = "ab" ∧
    ("a b" : String) ≠ "ab" := by
  exact ⟨by decide, by decide, by decide⟩

/-! ## Claim C10 -/

theorem pyStrField_cases (a : Alert) (k : String) :
    (∃ s, pyStrField a k = .ok s ∧ fieldNonStr a k = false ∧
      (match alertGet? a k with | some (.jstr s) => s | _ => "") = s) ∨
    (pyStrField a k = .error () ∧ fieldNonStr a k = true) := by
  unfold pyStrField fieldNonStr
  cases h : alertGet? a k with
  | none => exact .inl ⟨"", by simp⟩
  | some v =>
    cases v with
    | jstr s => exact .inl ⟨s, by simp⟩
    | jnum n => exact .inr (by simp)
    | jbool b => exact .inr (by simp)
    | jnull => exact .inr (by simp)

theorem filter_raises_iff (a : Alert) :
    isHighConfidenceAlert a = .error () ↔ filterRaises a = true := by
  rcases pyStrField_cases a "note" with ⟨sn, hn, fn, mn⟩ | ⟨hn, fn⟩
  · unfold isHighConfidenceAlert filterRaises
    rw [hn, fn, mn]
    simp only [Except.map, bind, Except.bind, if_false, Bool.false_eq_true]
    split_ifs with c1 c2
    · simp [pure, Except.pure]
    · simp [pure, Except.pure]
    · rcases pyStrField_cases a "raw" with ⟨sr, hr, fr, -⟩ | ⟨hr, fr⟩
      · rcases pyStrField_cases a "description" with ⟨sd, hd, fd, -⟩ | ⟨hd, fd⟩
        · rcases pyStrField_cases a "threat_level" with ⟨st', ht, ft, -⟩ | ⟨ht, ft⟩
          · simp [hr, fr, hd, fd, ht, ft, pure, Except.pure]
          · simp [hr, fr, hd, fd, ht, ft, pure, Except.pure]
        · simp [hr, fr, hd, fd, pure, Except.pure]
      · simp [hr, fr, pure, Except.pure]
  · unfold isHighConfidenceAlert filterRaises
    rw [hn, fn]
    simp [Except.map, bind, Except.bind]

theorem getNewAlertsGo_stops (now : Int) (A : Alert) (post : List FileLine)
    (hA : isHighConfidenceAlert A = .error ()) :
    ∀ (pre : List FileLine) (st : RespState) (acc : List Alert),
      (∀ b ∈ alertsOfLines pre, isHighConfidenceAlert b ≠ .error ()) →
      getNewAlertsGo now st (pre ++ .parsed A :: post) acc =
        getNewAlertsGo now st pre acc := by
  intro pre
  induction pre with
  | nil =>
    intro st acc _
    simp [getNewAlertsGo, hA]
  | cons l rest ih =>
    intro st acc hpre
    cases l with
    | malformed =>
      simp only [List.cons_append, getNewAlertsGo]
      exact ih st acc (fun b hb => hpre b (by simpa [alertsOfLines] using hb))
    | parsed b =>
      have hb : isHighConfidenceAlert b ≠ .error () :=
        hpre b (by simp [alertsOfLines])
      have hrest : ∀ c ∈ alertsOfLines rest, isHighConfidenceAlert c ≠ .error () := by
        intro c hc
        refine hpre c ?_
        simp only [alertsOfLines, List.filterMap_cons] at hc ⊢
        simp [hc]
      cases hfb : isHighConfidenceAlert b with
      | error e =>
        cases e
        exact absurd hfb hb
      | ok bv =>
        cases bv with
        | false =>
          simp only [List.cons_append, getNewAlertsGo, hfb]
          exact ih st acc hrest
        | true =>
          simp only [List.cons_append, getNewAlertsGo, hfb]
          split_ifs with hc
          · exact ih st acc hrest
          · cases hdt : isDuplicateThreat st b (getAlertHash b) now with
            | error e => simp [hdt]
            | ok pr =>
              obtain ⟨verdict, st1⟩ := pr
              cases verdict with
              | false =>
                simp only [hdt]
                exact ih st1 (b :: acc) hrest
              | true =>
                simp only [hdt]
                exact ih st1 acc hrest

/-- C10 is false on the code as stated: a valid JSON line binding raw to a
non-string value need not make the filter raise. On the fixture whose note
is the string info and whose raw is the number 5, the bare-marker check
rejects the alert before raw is touched, so the filter returns false
without raising, and a valid actionable line after it is still returned in
the same poll. -/
theorem nonstring_field_no_raise :
    isHighConfidenceAlert alertBadRaw = .ok false ∧
    (getNewAlerts ⟨[], []⟩ [.parsed alertBadRaw, .parsed alertConf09] 0).1 =
      [alertConf09] := by
  exact ⟨by decide, by decide⟩

/-- C10 amended: the filter raises on a line with a non-string field only
when that field is reached: a non-string note always raises, while a
non-string raw, description or threat_level raises only when the
note-marker and bare-marker checks both pass; whenever the filter raises,
get_new_alerts stops scanning and returns exactly the alerts collected
from the lines before that one, so valid alert lines after it are not
returned in that poll. -/
theorem filter_exception_stops_scan :
    (∀ a : Alert, (isHighConfidenceAlert a = .error () ↔ filterRaises a = true)) ∧
    (∀ (st : RespState) (now : Int) (pre : List FileLine) (A : Alert)
      (post : List FileLine),
      (∀ b ∈ alertsOfLines pre, isHighConfidenceAlert b ≠ .error ()) →
      isHighConfidenceAlert A = .error () →
      getNewAlerts st (pre ++ .parsed A :: post) now = getNewAlerts st pre now) := by
  refine ⟨filter_raises_iff, ?_⟩
  intro st now pre A post hpre hA
  exact getNewAlertsGo_stops now A post hA pre st [] hpre

/-- Witness for the amended C10 theorem: a file with one good line, then a
line whose note is a number, then another good line returns only the first
alert. -/
theorem filter_exception_stops_scan_witness :
    getNewAlerts ⟨[], []⟩
        [.parsed alertConf09, .parsed alertBadNote, .parsed alertPortScanTcp] 0 =
      getNewAlerts ⟨[], []⟩ [.parsed alertConf09] 0 :=
  filter_exception_stops_scan.2 ⟨[], []⟩ 0 [.parsed alertConf09] alertBadNote
    [.parsed alertPortScanTcp]
    (by
      intro b hb
      simp only [alertsOfLines, List.filterMap_cons, List.filterMap_nil] at hb
      simp only [List.mem_singleton] at hb
      subst hb
      decide)
    (by decide)

end Trident
